import Mathlib

/-!
Shallow embedding of the rex-lapis trading core
(`RexLapisLib/core/manager.py`, `RexLapisLib/core/context.py`,
`RexLapisLib/core/backtester.py`) and proofs about the specification's
claims.  Python floats are modelled by `ℚ`, optional values by `Option`,
dictionaries by association lists, and the exchange client's behaviour by
an explicit per-cycle result parameter.
-/

namespace RexLapis

/-- `ExecutorState` from `RexLapisLib/models/states.py`: the closed enum of
trade lifecycle states.  In Python it is a `str` enum whose member names
coincide with their string values. -/
inductive ExecutorState where
  | PENDING_ENTRY
  | PLACED_ENTRY
  | FILLED_WAIT
  | PLACED_EXIT
  | COMPLETED
deriving DecidableEq, Repr

/-- The `.value` string of each enum member (identical to its name). -/
def ExecutorState.value : ExecutorState → String
  | .PENDING_ENTRY => "PENDING_ENTRY"
  | .PLACED_ENTRY => "PLACED_ENTRY"
  | .FILLED_WAIT => "FILLED_WAIT"
  | .PLACED_EXIT => "PLACED_EXIT"
  | .COMPLETED => "COMPLETED"

/-- `ExecutorState(s)`: lookup by enum *value*, `none` when the Python call
would raise `ValueError`. -/
def ExecutorState.fromValue (s : String) : Option ExecutorState :=
  if s = "PENDING_ENTRY" then some .PENDING_ENTRY
  else if s = "PLACED_ENTRY" then some .PLACED_ENTRY
  else if s = "FILLED_WAIT" then some .FILLED_WAIT
  else if s = "PLACED_EXIT" then some .PLACED_EXIT
  else if s = "COMPLETED" then some .COMPLETED
  else none

/-- `ExecutorState[s]` guarded by `s in ExecutorState.__members__`: lookup by
member *name* (the same five strings, since names equal values). -/
def ExecutorState.fromMemberName (s : String) : Option ExecutorState :=
  ExecutorState.fromValue s

/-- One record of the order-history map (`get_order_history` rows as consumed
by `execute_cycle`): `order_data.get('status', '')` and
`order_data.get('avg_price', default)` are the only keys read, so the record
carries exactly those, with `avg_price` optional. -/
structure OrderRecord where
  status : String
  avg_price : Option ℚ
deriving DecidableEq, Repr

/-- `PositionExecutor`'s mutable fields (`manager.py`, `__init__`).  The
`client` reference is not data; its behaviour enters `execute_cycle` as an
explicit parameter. -/
structure PositionExecutor where
  target_entry : ℚ
  target_exit : ℚ
  qty : ℚ
  maker_offset_buy : ℚ
  maker_offset_sell : ℚ
  loop_trade : Bool
  state : ExecutorState
  active_order_id : Option String
  entry_fill_price : ℚ
  exit_fill_price : ℚ
deriving DecidableEq, Repr

/-- `PositionExecutor.__init__`: fresh executor in `PENDING_ENTRY` with no
outstanding order and zero fill prices. -/
def PositionExecutor.init (target_entry target_exit qty maker_offset_buy
    maker_offset_sell : ℚ) (loop_trade : Bool) : PositionExecutor :=
  { target_entry := target_entry
    target_exit := target_exit
    qty := qty
    maker_offset_buy := maker_offset_buy
    maker_offset_sell := maker_offset_sell
    loop_trade := loop_trade
    state := .PENDING_ENTRY
    active_order_id := none
    entry_fill_price := 0
    exit_fill_price := 0 }

/-- Outcome of the single `client.place_limit_order` call a cycle can make:
`ok oid` models a successful submission returning the order id, `err ro`
models a raised exception, with `ro = true` when the message contains
`110017` or `reduceOnly` (the reduce-only error class checked in the
`FILLED_WAIT` handler). -/
inductive PlaceResult where
  | ok (oid : String)
  | err (reduceOnlyErr : Bool)
deriving DecidableEq, Repr

/-- `self.active_order_id in open_order_ids`: Python's `None` is never a
member of a set of id strings. -/
def idInOpen (oid : Option String) (openIds : List String) : Bool :=
  match oid with
  | none => false
  | some s => openIds.contains s

/-- `order_history_map.get(self.active_order_id)` over an association list;
`None` is not a key of the string-keyed map. -/
def lookupHistory (oid : Option String) (hist : List (String × OrderRecord)) :
    Option OrderRecord :=
  match oid with
  | none => none
  | some s => hist.lookup s

/-- Entry limit price computed in the `PENDING_ENTRY` branch: shade below the
current price by `maker_offset_buy` when the market is already below the
target entry. -/
def entryLimitPrice (e : PositionExecutor) (current_price : ℚ) : ℚ :=
  if current_price < e.target_entry then current_price - e.maker_offset_buy
  else e.target_entry

/-- Exit limit price computed in the `FILLED_WAIT` branch: shade above the
current price by `maker_offset_sell` when the market already exceeds the
target exit. -/
def exitLimitPrice (e : PositionExecutor) (current_price : ℚ) : ℚ :=
  if current_price > e.target_exit then current_price + e.maker_offset_sell
  else e.target_exit

/-- `PositionExecutor.execute_cycle` (`manager.py` lines 75-163): one
heartbeat of the state machine.  `place` is the outcome the client would give
to the (at most one) order submission this cycle performs; logging calls are
side-effect free and dropped. -/
def executeCycle (e : PositionExecutor) (current_price : ℚ)
    (openIds : List String) (hist : List (String × OrderRecord))
    (place : PlaceResult) : PositionExecutor :=
  match e.state with
  | .PENDING_ENTRY =>
      -- limit price `entryLimitPrice e current_price` is submitted post-only
      match place with
      | .ok oid => { e with active_order_id := some oid, state := .PLACED_ENTRY }
      | .err _ => e
  | .PLACED_ENTRY =>
      if idInOpen e.active_order_id openIds then e
      else
        match lookupHistory e.active_order_id hist with
        | none => e
        | some od =>
            if od.status = "Filled" then
              { e with entry_fill_price := od.avg_price.getD e.target_entry
                       active_order_id := none
                       state := .FILLED_WAIT }
            else if od.status = "Cancelled" ∨ od.status = "Rejected" ∨
                od.status = "Deactivated" then
              { e with active_order_id := none, state := .PENDING_ENTRY }
            else e
  | .FILLED_WAIT =>
      -- limit price `exitLimitPrice e current_price` is submitted reduce-only
      match place with
      | .ok oid => { e with active_order_id := some oid, state := .PLACED_EXIT }
      | .err ro =>
          if ro then { e with state := .PENDING_ENTRY, active_order_id := none }
          else e
  | .PLACED_EXIT =>
      if idInOpen e.active_order_id openIds then e
      else
        match lookupHistory e.active_order_id hist with
        | none => e
        | some od =>
            if od.status = "Filled" then
              let e1 := { e with exit_fill_price := od.avg_price.getD e.target_exit }
              if e1.loop_trade then
                { e1 with state := .PENDING_ENTRY
                          active_order_id := none
                          entry_fill_price := 0
                          exit_fill_price := 0 }
              else
                { e1 with state := .COMPLETED }
            else if od.status = "Cancelled" ∨ od.status = "Rejected" ∨
                od.status = "Deactivated" then
              { e with active_order_id := none, state := .FILLED_WAIT }
            else e
  | .COMPLETED => e

/-- The observable inputs of one heartbeat. -/
structure CycleInput where
  current_price : ℚ
  openIds : List String
  hist : List (String × OrderRecord)
  place : PlaceResult
deriving Repr

/-- A sequence of heartbeats applied to an executor. -/
def runCycles (e : PositionExecutor) (inputs : List CycleInput) :
    PositionExecutor :=
  inputs.foldl (fun acc i => executeCycle acc i.current_price i.openIds i.hist i.place) e

/-- The order-id invariant the code actually maintains: the id field is
`none` whenever the executor sits in a state from which it would place a new
order (`PENDING_ENTRY`, `FILLED_WAIT`). -/
def idInvariant (e : PositionExecutor) : Prop :=
  (e.state = .PENDING_ENTRY ∨ e.state = .FILLED_WAIT) → e.active_order_id = none

lemma executeCycle_preserves_idInvariant (e : PositionExecutor)
    (cp : ℚ) (openIds : List String) (hist : List (String × OrderRecord))
    (place : PlaceResult) (h : idInvariant e) :
    idInvariant (executeCycle e cp openIds hist place) := by
  unfold idInvariant at h ⊢
  unfold executeCycle
  cases hs : e.state <;> simp only []
  · cases place <;> simp_all
  · by_cases ho : idInOpen e.active_order_id openIds
    · simp_all
    · simp only [ho, if_false]
      cases hl : lookupHistory e.active_order_id hist with
      | none => simp_all
      | some od =>
          by_cases hf : od.status = "Filled"
          · simp_all
          · by_cases hc : od.status = "Cancelled" ∨ od.status = "Rejected" ∨
                od.status = "Deactivated"
            · simp_all
            · simp_all
  · cases place with
    | ok oid => simp_all
    | err ro => by_cases hro : ro <;> simp_all
  · by_cases ho : idInOpen e.active_order_id openIds
    · simp_all
    · simp only [ho, if_false]
      cases hl : lookupHistory e.active_order_id hist with
      | none => simp_all
      | some od =>
          by_cases hf : od.status = "Filled"
          · by_cases hlp : e.loop_trade <;> simp_all
          · by_cases hc : od.status = "Cancelled" ∨ od.status = "Rejected" ∨
                od.status = "Deactivated"
            · simp_all
            · simp_all
  · simp_all

lemma runCycles_idInvariant (e : PositionExecutor) (inputs : List CycleInput)
    (h : idInvariant e) : idInvariant (runCycles e inputs) := by
  induction inputs generalizing e with
  | nil => exact h
  | cons i rest ih =>
      exact ih _ (executeCycle_preserves_idInvariant _ _ _ _ _ h)

/-- Inputs of a four-cycle run that drives a non-looping executor through a
full entry/exit round trip: entry placed, entry filled, exit placed, exit
filled. -/
def fullTripInputs : List CycleInput :=
  [ { current_price := 100, openIds := [], hist := [], place := .ok "ord-1" },
    { current_price := 100, openIds := [],
      hist := [("ord-1", { status := "Filled", avg_price := some 100 })],
      place := .err false },
    { current_price := 110, openIds := [], hist := [], place := .ok "ord-2" },
    { current_price := 110, openIds := [],
      hist := [("ord-2", { status := "Filled", avg_price := some 110 })],
      place := .err false } ]

/-- C1, counterexample: after a completed round trip the executor is in
`COMPLETED` yet still holds the exit order's id — `execute_cycle` does not
clear `active_order_id` on the `PLACED_EXIT → COMPLETED` transition, so the
claim that the field is `None` in `COMPLETED` is false on a reachable
state. -/
theorem completed_retains_order_id :
    (runCycles (PositionExecutor.init 100 110 1 0 0 false) fullTripInputs).state
        = .COMPLETED ∧
      (runCycles (PositionExecutor.init 100 110 1 0 0 false) fullTripInputs).active_order_id
        = some "ord-2" := by
  constructor <;> rfl

/-- C1 (amended): for every sequence of `execute_cycle` invocations from a
fresh executor, `active_order_id` — the only order-id field — is `none` in
the states `PENDING_ENTRY` and `FILLED_WAIT`, which are exactly the states
that place a new order; hence an order is placed only when none is
outstanding.  (In `COMPLETED` the field retains the filled exit order's id.) -/
theorem single_outstanding_order_invariant
    (target_entry target_exit qty maker_offset_buy maker_offset_sell : ℚ)
    (loop_trade : Bool) (inputs : List CycleInput) :
    idInvariant (runCycles
      (PositionExecutor.init target_entry target_exit qty maker_offset_buy
        maker_offset_sell loop_trade) inputs) := by
  apply runCycles_idInvariant
  intro _
  rfl

/-- C1 witness: a concrete run ending in `PENDING_ENTRY` has no outstanding
order id. -/
theorem single_outstanding_order_invariant_witness :
    (runCycles (PositionExecutor.init 100 110 1 0 0 false) []).active_order_id
      = none :=
  single_outstanding_order_invariant 100 110 1 0 0 false [] (Or.inl rfl)

/-- C2: in `PLACED_ENTRY`, with the order id absent from the open-order set:
a history record with status `Filled` and an average price moves the executor
to `FILLED_WAIT` with `entry_fill_price` equal to that average price and no
outstanding id; absence from the history map as well leaves the executor
entirely unchanged. -/
theorem placed_entry_fill_and_latency (e : PositionExecutor) (cp : ℚ)
    (openIds : List String) (hist : List (String × OrderRecord))
    (place : PlaceResult) (oid : String)
    (hstate : e.state = .PLACED_ENTRY)
    (hoid : e.active_order_id = some oid)
    (hopen : openIds.contains oid = false) :
    (∀ od p, hist.lookup oid = some od → od.status = "Filled" →
        od.avg_price = some p →
        executeCycle e cp openIds hist place =
          { e with entry_fill_price := p, active_order_id := none,
                   state := .FILLED_WAIT }) ∧
    (hist.lookup oid = none → executeCycle e cp openIds hist place = e) := by
  constructor
  · intro od p hl hf hp
    unfold executeCycle
    rw [hstate]
    simp only [idInOpen, hoid, hopen, lookupHistory, hl, if_false, hf]
    simp [hp]
  · intro hl
    unfold executeCycle
    rw [hstate]
    simp [idInOpen, hoid, hopen, lookupHistory, hl]

/-- A concrete executor sitting in `PLACED_ENTRY` with outstanding id
`ord-1`. -/
def ePlacedEntry : PositionExecutor :=
  { PositionExecutor.init 100 110 1 0 0 false with
      state := .PLACED_ENTRY, active_order_id := some "ord-1" }

/-- C2 witness: both branches evaluated at concrete inputs. -/
theorem placed_entry_fill_and_latency_witness :
    executeCycle ePlacedEntry 100 []
        [("ord-1", { status := "Filled", avg_price := some 101 })] (.err false)
      = { ePlacedEntry with entry_fill_price := 101, active_order_id := none,
                            state := .FILLED_WAIT } ∧
    executeCycle ePlacedEntry 100 [] [] (.err false) = ePlacedEntry :=
  ⟨(placed_entry_fill_and_latency ePlacedEntry 100 []
        [("ord-1", { status := "Filled", avg_price := some 101 })] (.err false)
        "ord-1" rfl rfl rfl).1
      { status := "Filled", avg_price := some 101 } 101 rfl rfl rfl,
    (placed_entry_fill_and_latency ePlacedEntry 100 [] [] (.err false)
        "ord-1" rfl rfl rfl).2 rfl⟩

/-- A concrete executor sitting in `PLACED_EXIT` with outstanding id
`ord-2`. -/
def ePlacedExit : PositionExecutor :=
  { PositionExecutor.init 100 110 1 0 0 false with
      state := .PLACED_EXIT, active_order_id := some "ord-2",
      entry_fill_price := 100 }

/-- C6, counterexample: a cancelled exit order does not send the executor
back to `PENDING_ENTRY`; the code transitions it to `FILLED_WAIT` (the
position is still open, so only the exit is retried). -/
theorem placed_exit_cancelled_not_pending :
    (executeCycle ePlacedExit 100 []
        [("ord-2", { status := "Cancelled", avg_price := none })]
        (.err false)).state ≠ .PENDING_ENTRY ∧
    (executeCycle ePlacedExit 100 []
        [("ord-2", { status := "Cancelled", avg_price := none })]
        (.err false)).state = .FILLED_WAIT := by
  constructor
  · intro h
    exact absurd h (by decide)
  · rfl

/-- C6 (amended): in `PLACED_EXIT`, with the order id absent from the open
set and a history status of `Cancelled`, `Rejected` or `Deactivated`,
`execute_cycle` clears the order id and transitions the executor back to
`FILLED_WAIT` (not `PENDING_ENTRY`), so the exit is retried while the
position stays tracked. -/
theorem placed_exit_cancelled_resets_to_filled_wait (e : PositionExecutor)
    (cp : ℚ) (openIds : List String) (hist : List (String × OrderRecord))
    (place : PlaceResult) (oid : String) (od : OrderRecord)
    (hstate : e.state = .PLACED_EXIT)
    (hoid : e.active_order_id = some oid)
    (hopen : openIds.contains oid = false)
    (hl : hist.lookup oid = some od)
    (hc : od.status = "Cancelled" ∨ od.status = "Rejected" ∨
      od.status = "Deactivated") :
    executeCycle e cp openIds hist place =
      { e with active_order_id := none, state := .FILLED_WAIT } := by
  unfold executeCycle
  rw [hstate]
  simp only [idInOpen, hoid, hopen, lookupHistory, hl, if_false]
  have hnf : ¬ od.status = "Filled" := by
    rcases hc with h | h | h <;> simp [h]
  simp [hnf, hc]

/-- C6 witness: the amended transition at a concrete input. -/
theorem placed_exit_cancelled_resets_to_filled_wait_witness :
    executeCycle ePlacedExit 100 []
        [("ord-2", { status := "Rejected", avg_price := none })] (.err false)
      = { ePlacedExit with active_order_id := none, state := .FILLED_WAIT } :=
  placed_exit_cancelled_resets_to_filled_wait ePlacedExit 100 []
    [("ord-2", { status := "Rejected", avg_price := none })] (.err false)
    "ord-2" { status := "Rejected", avg_price := none } rfl rfl rfl rfl
    (Or.inr (Or.inl rfl))

/-- The plain record produced by `PositionExecutor.to_dict` / consumed by
`from_dict`.  Keys `to_dict` always writes are plain fields; `loop_trade` and
`entry_fill_price`, which `from_dict` reads with `dict.get` defaults, are
`Option`s so that legacy records missing them are representable.  `to_dict`
never writes `exit_fill_price`, so the record has no such key. -/
structure ExecutorRecord where
  target_entry : ℚ
  target_exit : ℚ
  qty : ℚ
  maker_offset_buy : ℚ
  maker_offset_sell : ℚ
  loop_trade : Option Bool
  state : String
  active_order_id : Option String
  entry_fill_price : Option ℚ
deriving DecidableEq, Repr

/-- `PositionExecutor.to_dict` (`manager.py` lines 170-182). -/
def PositionExecutor.to_dict (e : PositionExecutor) : ExecutorRecord :=
  { target_entry := e.target_entry
    target_exit := e.target_exit
    qty := e.qty
    maker_offset_buy := e.maker_offset_buy
    maker_offset_sell := e.maker_offset_sell
    loop_trade := some e.loop_trade
    state := e.state.value
    active_order_id := e.active_order_id
    entry_fill_price := some e.entry_fill_price }

/-- The state-string recovery of `from_dict`: try `ExecutorState(state_val)`,
and on `ValueError` fall back to
`ExecutorState[state_val] if state_val in ExecutorState.__members__ else
ExecutorState.PENDING_ENTRY`. -/
def parseStateString (s : String) : ExecutorState :=
  match ExecutorState.fromValue s with
  | some st => st
  | none => (ExecutorState.fromMemberName s).getD .PENDING_ENTRY

/-- `PositionExecutor.from_dict` (`manager.py` lines 184-206); the `client`
argument carries no data in the embedding. -/
def PositionExecutor.from_dict (r : ExecutorRecord) : PositionExecutor :=
  { target_entry := r.target_entry
    target_exit := r.target_exit
    qty := r.qty
    maker_offset_buy := r.maker_offset_buy
    maker_offset_sell := r.maker_offset_sell
    loop_trade := r.loop_trade.getD false
    state := parseStateString r.state
    active_order_id := r.active_order_id
    entry_fill_price := r.entry_fill_price.getD 0
    exit_fill_price := 0 }

lemma parseStateString_value (s : ExecutorState) :
    parseStateString s.value = s := by
  cases s <;> rfl

/-- A completed executor with a non-zero recorded exit fill price. -/
def eCompleted : PositionExecutor :=
  { PositionExecutor.init 100 110 1 0 0 false with
      state := .COMPLETED, active_order_id := some "ord-2",
      entry_fill_price := 100, exit_fill_price := 110 }

/-- C8, counterexample: `to_dict` does not serialize `exit_fill_price`, so a
round trip through `from_dict` loses it — an executor with
`exit_fill_price = 110` comes back with `0`. -/
theorem roundtrip_loses_exit_fill_price :
    PositionExecutor.from_dict (PositionExecutor.to_dict eCompleted)
        ≠ eCompleted ∧
      (PositionExecutor.from_dict (PositionExecutor.to_dict eCompleted)).exit_fill_price
        = 0 ∧
      eCompleted.exit_fill_price = 110 := by
  refine ⟨fun h => ?_, rfl, rfl⟩
  have := congrArg PositionExecutor.exit_fill_price h
  exact absurd this (by decide)

/-- C8 (amended): serializing with `to_dict` and deserializing with
`from_dict` reproduces every field of the executor except
`exit_fill_price`, which is reset to `0.0` because `to_dict` omits it; the
round trip is the identity exactly on executors whose `exit_fill_price` is
already `0.0`. -/
theorem roundtrip_preserves_all_but_exit_fill (e : PositionExecutor) :
    PositionExecutor.from_dict (PositionExecutor.to_dict e) =
      { e with exit_fill_price := 0 } := by
  unfold PositionExecutor.from_dict PositionExecutor.to_dict
  simp [parseStateString_value]

/-- C10: a persisted record whose state string is neither a valid
`ExecutorState` value nor a member name deserializes without raising:
`from_dict` yields an executor in `PENDING_ENTRY`, with every other field
taken from the record (using the record's `dict.get` defaults for
`loop_trade` and `entry_fill_price`). -/
theorem from_dict_invalid_state_defaults (r : ExecutorRecord)
    (hbad : ExecutorState.fromValue r.state = none) :
    PositionExecutor.from_dict r =
      { target_entry := r.target_entry
        target_exit := r.target_exit
        qty := r.qty
        maker_offset_buy := r.maker_offset_buy
        maker_offset_sell := r.maker_offset_sell
        loop_trade := r.loop_trade.getD false
        state := .PENDING_ENTRY
        active_order_id := r.active_order_id
        entry_fill_price := r.entry_fill_price.getD 0
        exit_fill_price := 0 } := by
  unfold PositionExecutor.from_dict parseStateString ExecutorState.fromMemberName
  rw [hbad]
  rfl

/-- A persisted record carrying a corrupt state string. -/
def rBadState : ExecutorRecord :=
  { target_entry := 100, target_exit := 110, qty := 1,
    maker_offset_buy := 0, maker_offset_sell := 0, loop_trade := some true,
    state := "HALTED", active_order_id := some "ord-9",
    entry_fill_price := some 100 }

/-- C10 witness: the corrupt record deserializes to a `PENDING_ENTRY`
executor with the record's other fields. -/
theorem from_dict_invalid_state_defaults_witness :
    PositionExecutor.from_dict rBadState =
      { target_entry := rBadState.target_entry
        target_exit := rBadState.target_exit
        qty := rBadState.qty
        maker_offset_buy := rBadState.maker_offset_buy
        maker_offset_sell := rBadState.maker_offset_sell
        loop_trade := rBadState.loop_trade.getD false
        state := .PENDING_ENTRY
        active_order_id := rBadState.active_order_id
        entry_fill_price := rBadState.entry_fill_price.getD 0
        exit_fill_price := 0 } :=
  from_dict_invalid_state_defaults rBadState rfl

/-- The exchange's open-position report (`client.get_open_position`); only
its presence and quantity are consumed by `reconcile_after_crash`. -/
structure ExchangePos where
  qty : ℚ
deriving DecidableEq, Repr

/-- Contents of the persisted JSON state file: either a grid-bot list of
executor records, or a single-strategy dict.  Of the dict only its
`position` entry is consumed by `reconcile_after_crash`
(`saved_state.get('position')`); `position := none` covers both an absent
key and a Python-falsy value.  (An empty dict — falsy as a whole — skips the
clearing branch in the code, but since its `position` is also falsy the
observable outcome is identical, so truthiness of a dict is modelled as
`true`.) -/
inductive SavedData where
  | gridList (records : List ExecutorRecord)
  | singleDict (position : Option ExchangePos)
deriving DecidableEq, Repr

/-- Python truthiness of the value returned by `load_from_disk`: `None` and
the empty list are falsy. -/
def savedTruthy : Option SavedData → Bool
  | none => false
  | some (.gridList rs) => !rs.isEmpty
  | some (.singleDict _) => true

/-- `TradeManager`'s persistent and in-memory state as seen by the
reconciliation path: the state file's parsed contents (`none` = file absent)
and the executor list. -/
structure ManagerState where
  file : Option SavedData
  executors : List PositionExecutor
deriving Repr

/-- `TradeManager.load_from_disk` (`manager.py` lines 311-332): returns the
parsed contents; when the file holds a list, it additionally rebuilds the
in-memory executor list via `from_dict`. -/
def ManagerState.load_from_disk (m : ManagerState) :
    Option SavedData × ManagerState :=
  match m.file with
  | none => (none, m)
  | some (.gridList rs) =>
      (some (.gridList rs),
        { m with executors := rs.map PositionExecutor.from_dict })
  | some (.singleDict p) => (some (.singleDict p), m)

/-- `TradeManager.clear_state` (`manager.py` lines 342-348): removes the
state file. -/
def ManagerState.clear_state (m : ManagerState) : ManagerState :=
  { m with file := none }

/-- `TradeManager.reconcile_after_crash` (`manager.py` lines 350-382):
compares the persisted state with the exchange's actual position.  Returns
the recovered dict (scenario 1) or `none`, together with the updated
manager state. -/
def ManagerState.reconcile_after_crash (m : ManagerState)
    (actual_pos : Option ExchangePos) : Option SavedData × ManagerState :=
  let (saved, m1) := m.load_from_disk
  match actual_pos with
  | some p =>
      -- Scenario 1: position still open on the exchange.
      match saved with
      | some (.singleDict _) => (some (.singleDict (some p)), m1)
      | _ => (some (.singleDict (some p)), m1)
  | none =>
      -- Scenario 2: saved state but the exchange shows no position.
      if savedTruthy saved then
        let has_pos_flag :=
          match saved with
          | some (.singleDict (some _)) => true
          | some (.gridList rs) => !rs.isEmpty
          | _ => false
        if has_pos_flag then
          (none, { m1.clear_state with executors := [] })
        else (none, m1)
      else (none, m1)

/-- C7: when the persisted state is non-empty — a non-empty executor-record
list, or a dict recording a position — and the exchange reports no open
position, `reconcile_after_crash` deletes the persisted state file and
leaves the in-memory executor list empty. -/
theorem reconcile_clears_stale_state (m : ManagerState) :
    (∀ rs, m.file = some (.gridList rs) → rs ≠ [] →
        (m.reconcile_after_crash none).2.file = none ∧
        (m.reconcile_after_crash none).2.executors = []) ∧
    (∀ p, m.file = some (.singleDict (some p)) →
        (m.reconcile_after_crash none).2.file = none ∧
        (m.reconcile_after_crash none).2.executors = []) := by
  constructor
  · intro rs hf hne
    have hrs : rs.isEmpty = false := by
      cases rs with
      | nil => exact absurd rfl hne
      | cons a l => rfl
    unfold ManagerState.reconcile_after_crash ManagerState.load_from_disk
    rw [hf]
    simp [savedTruthy, hrs, ManagerState.clear_state]
  · intro p hf
    unfold ManagerState.reconcile_after_crash ManagerState.load_from_disk
    rw [hf]
    simp [savedTruthy, ManagerState.clear_state]

/-- A manager whose state file persists one executor record while the
exchange shows nothing. -/
def mStale : ManagerState :=
  { file := some (.gridList [PositionExecutor.to_dict eCompleted]),
    executors := [] }

/-- C7 witness: the stale grid state is cleared. -/
theorem reconcile_clears_stale_state_witness :
    (mStale.reconcile_after_crash none).2.file = none ∧
      (mStale.reconcile_after_crash none).2.executors = [] :=
  (reconcile_clears_stale_state mStale).1
    [PositionExecutor.to_dict eCompleted] rfl (by decide)

/-- The simulated position dict of `BacktestContext`
(`{'side', 'qty', 'entry_price', 'margin_used'}`). -/
structure Position where
  side : String
  qty : ℚ
  entry_price : ℚ
  margin_used : ℚ
deriving DecidableEq, Repr

/-- A resting limit order in the simulator's pending book. -/
structure PendingOrder where
  side : String
  qty : ℚ
  price : ℚ
  post_only : Bool
  reduce_only : Bool
deriving DecidableEq, Repr

/-- A trade-log entry: `Buy` entries carry `qty`, `Close` entries carry
`pnl`; both carry the execution price and the context's current time. -/
structure TradeRec where
  type : String
  price : ℚ
  qty : Option ℚ
  pnl : Option ℚ
  time : Option Nat
deriving DecidableEq, Repr

/-- The candle fields `_check_pending_orders` reads. -/
structure Candle where
  low : ℚ
  high : ℚ
deriving DecidableEq, Repr

/-- `BacktestContext` (`context.py` lines 93-102): wallet, fees, leverage,
position, trade log, pending-order book and the replay clock. -/
structure BacktestContext where
  balance : ℚ
  fee_rate : ℚ
  leverage : ℚ
  position : Option Position
  trades : List TradeRec
  pending_orders : List PendingOrder
  current_price : ℚ
  current_time : Option Nat
deriving DecidableEq, Repr

/-- `BacktestContext.__init__` with its defaults
(`initial_balance = 10000`, `fee_rate = 0.0006`, leverage 1, no position,
empty logs). -/
def BacktestContext.init (initial_balance : ℚ := 10000)
    (fee_rate : ℚ := 6 / 10000) : BacktestContext :=
  { balance := initial_balance, fee_rate := fee_rate, leverage := 1,
    position := none, trades := [], pending_orders := [],
    current_price := 0, current_time := none }

/-- Python truthiness of an optional float argument (`if price:`): `None`
and `0.0` are falsy. -/
def priceTruthy : Option ℚ → Bool
  | none => false
  | some p => decide (p ≠ 0)

/-- Whether the current position exists with the given side
(`self.position and self.position['side'] == s`). -/
def BacktestContext.hasSide (ctx : BacktestContext) (s : String) : Bool :=
  match ctx.position with
  | none => false
  | some p => p.side = s

/-- `BacktestContext._close_position` (`context.py` lines 212-224): realize
PnL net of the exit fee, release margin, append a `Close` trade record and
zero the position. -/
def BacktestContext.close_position (ctx : BacktestContext) (exit_price : ℚ) :
    BacktestContext :=
  match ctx.position with
  | none => ctx
  | some p =>
      let raw_pnl := if p.side = "Buy" then (exit_price - p.entry_price) * p.qty
                     else (p.entry_price - exit_price) * p.qty
      let fee := p.qty * exit_price * ctx.fee_rate
      let net_pnl := raw_pnl - fee
      { ctx with
          balance := ctx.balance + p.margin_used + net_pnl
          trades := ctx.trades ++
            [{ type := "Close", price := exit_price, qty := none,
               pnl := some net_pnl, time := ctx.current_time }]
          position := none }

/-- `BacktestContext._execute_buy` (`context.py` lines 165-192): margin/fee
check, close an opposite short first, open or average into a long, debit
`margin + fee`, log the trade.  The string result is the Python return value
(`none` = insufficient balance). -/
def BacktestContext.execute_buy (ctx : BacktestContext)
    (qty exec_price : ℚ) (reduce_only : Bool) :
    Option String × BacktestContext :=
  let total_value := qty * exec_price
  let required_margin := total_value / ctx.leverage
  let fee := total_value * ctx.fee_rate
  let total_cost := required_margin + fee
  if ctx.balance < total_cost then (none, ctx)
  else
    let hadShort := ctx.hasSide "Sell"
    let ctx1 := if hadShort then ctx.close_position exec_price else ctx
    if hadShort ∧ reduce_only then (some "BT_CLOSE", ctx1)
    else
      let ctx2 :=
        match ctx1.position with
        | none =>
            let newPos : Position :=
              { side := "Buy", qty := qty, entry_price := exec_price,
                margin_used := required_margin }
            { ctx1 with position := some newPos }
        | some p =>
            let new_qty := p.qty + qty
            let avg_price := (p.qty * p.entry_price + qty * exec_price) / new_qty
            let updPos : Position :=
              { side := p.side, qty := new_qty, entry_price := avg_price,
                margin_used := p.margin_used + required_margin }
            { ctx1 with position := some updPos }
      (some "BT_ID",
        { ctx2 with
            balance := ctx2.balance - total_cost
            trades := ctx2.trades ++
              [{ type := "Buy", price := exec_price, qty := some qty,
                 pnl := none, time := ctx2.current_time }] })

/-- `BacktestContext._execute_sell` (`context.py` lines 194-199): closing an
existing long is the only effect; every other path returns `None` without
touching the context (no short position is ever opened). -/
def BacktestContext.execute_sell (ctx : BacktestContext)
    (qty exec_price : ℚ) (reduce_only : Bool) :
    Option String × BacktestContext :=
  if ctx.hasSide "Buy" then (some "BT_ID", ctx.close_position exec_price)
  else if reduce_only then (none, ctx)
  else (none, ctx)

/-- `BacktestContext.buy` (`context.py` lines 119-140): post-only rejection,
reduce-only rejection, queueing of below-market limits, otherwise immediate
execution at the given or current price. -/
def BacktestContext.buy (ctx : BacktestContext) (qty : ℚ) (price : Option ℚ)
    (post_only reduce_only : Bool) : Option String × BacktestContext :=
  if post_only ∧ priceTruthy price ∧ price.getD 0 ≥ ctx.current_price then
    (none, ctx)
  else if reduce_only ∧ ¬ ctx.hasSide "Sell" then (none, ctx)
  else if priceTruthy price ∧ price.getD 0 < ctx.current_price then
    (some "BT_PENDING",
      { ctx with pending_orders := ctx.pending_orders ++
          [{ side := "Buy", qty := qty, price := price.getD 0,
             post_only := post_only, reduce_only := reduce_only }] })
  else
    let exec_price := if priceTruthy price then price.getD 0
                      else ctx.current_price
    ctx.execute_buy qty exec_price reduce_only

/-- `BacktestContext.sell` (`context.py` lines 142-163): the sell-side
gatekeeper, symmetric in its checks to `buy`. -/
def BacktestContext.sell (ctx : BacktestContext) (qty : ℚ) (price : Option ℚ)
    (post_only reduce_only : Bool) : Option String × BacktestContext :=
  if post_only ∧ priceTruthy price ∧ price.getD 0 ≤ ctx.current_price then
    (none, ctx)
  else if reduce_only ∧ ¬ ctx.hasSide "Buy" then (none, ctx)
  else if priceTruthy price ∧ price.getD 0 > ctx.current_price then
    (some "BT_PENDING",
      { ctx with pending_orders := ctx.pending_orders ++
          [{ side := "Sell", qty := qty, price := price.getD 0,
             post_only := post_only, reduce_only := reduce_only }] })
  else
    let exec_price := if priceTruthy price then price.getD 0
                      else ctx.current_price
    ctx.execute_sell qty exec_price reduce_only

/-- Python `list.remove`: drop the first element equal to `o`. -/
def removeFirst (l : List PendingOrder) (o : PendingOrder) : List PendingOrder :=
  match l with
  | [] => []
  | x :: xs => if x = o then xs else x :: removeFirst xs o

/-- `BacktestContext._check_pending_orders` (`context.py` lines 201-210):
iterate over a snapshot of the book; a buy fills when the candle's low
touches its limit, a sell when the high does; a touched order is removed
from the live book regardless of the fill attempt's outcome. -/
def BacktestContext.check_pending_orders (ctx : BacktestContext)
    (candle : Candle) : BacktestContext :=
  ctx.pending_orders.foldl
    (fun acc o =>
      if o.side = "Buy" ∧ candle.low ≤ o.price then
        let acc1 := (acc.execute_buy o.qty o.price o.reduce_only).2
        { acc1 with pending_orders := removeFirst acc1.pending_orders o }
      else if o.side = "Sell" ∧ candle.high ≥ o.price then
        let acc1 := (acc.execute_sell o.qty o.price o.reduce_only).2
        { acc1 with pending_orders := removeFirst acc1.pending_orders o }
      else acc)
    ctx

/-- `BacktestContext.update_state` (`context.py` lines 104-110): advance the
replay clock and, when a candle is supplied, resolve pending orders against
it. -/
def BacktestContext.update_state (ctx : BacktestContext) (price : ℚ)
    (time : Option Nat) (candle : Option Candle) : BacktestContext :=
  let ctx1 := { ctx with current_price := price, current_time := time }
  match candle with
  | some c => ctx1.check_pending_orders c
  | none => ctx1

/-- `warmup_period = 50` in `BacktestEngine.run` (`backtester.py` line 35). -/
def warmup_period : Nat := 50

/-- The slices `BacktestEngine.run` (`backtester.py` lines 38-53) passes to
`strategy.on_candle_tick`: for each `i in range(warmup_period, total)`, the
prefix `full_data.iloc[:i+1]` of the indicator-augmented series.  Rows are
abstract (`α`), as the strategy body is out of scope. -/
def runSlices {α : Type} (full : List α) : List (List α) :=
  ((List.range full.length).drop warmup_period).map (fun i => full.take (i + 1))

/-- C3: for every bar index `i` from the warm-up bar to the last bar, the
slice handed to the decision logic at step `i` is exactly the prefix of
length `i + 1`, whose last element is bar `i` — no later bar is visible. -/
theorem no_lookahead_slice {α : Type} (full : List α) (i : Nat)
    (h1 : warmup_period ≤ i) (h2 : i < full.length) :
    (runSlices full)[i - warmup_period]? = some (full.take (i + 1)) ∧
    (full.take (i + 1)).length = i + 1 ∧
    (full.take (i + 1)).getLast? = full[i]? := by
  refine ⟨?_, ?_, ?_⟩
  · unfold runSlices
    rw [List.getElem?_map, List.getElem?_drop, Nat.add_sub_cancel' h1,
      List.getElem?_range h2]
    rfl
  · rw [List.length_take]
    omega
  · rw [List.getLast?_eq_getElem?, List.length_take]
    have hmin : min (i + 1) full.length = i + 1 := by omega
    rw [hmin]
    simp only [Nat.add_sub_cancel]
    rw [List.getElem?_take]
    simp

/-- C3 witness: with 55 bars, step 52 sees the 53-bar prefix ending in
bar 52. -/
theorem no_lookahead_slice_witness :
    (runSlices (List.range 55))[52 - warmup_period]? =
        some ((List.range 55).take (52 + 1)) ∧
      ((List.range 55).take (52 + 1)).length = 52 + 1 ∧
      ((List.range 55).take (52 + 1)).getLast? = (List.range 55)[52]? :=
  no_lookahead_slice (List.range 55) 52 (by decide) (by decide)

/-- An immediately-executing market buy with no prior position: opens a long
of the given quantity at the current price, debits margin plus entry fee,
and logs a `Buy` trade. -/
lemma buy_market_opens_long (ctx : BacktestContext) (q : ℚ)
    (hpos : ctx.position = none)
    (hbal : ¬ ctx.balance < q * ctx.current_price / ctx.leverage +
      q * ctx.current_price * ctx.fee_rate) :
    ctx.buy q none false false =
      (some "BT_ID",
        { ctx with
            balance := ctx.balance - (q * ctx.current_price / ctx.leverage +
              q * ctx.current_price * ctx.fee_rate)
            position := some
              { side := "Buy", qty := q, entry_price := ctx.current_price,
                margin_used := q * ctx.current_price / ctx.leverage }
            trades := ctx.trades ++
              [{ type := "Buy", price := ctx.current_price, qty := some q,
                 pnl := none, time := ctx.current_time }] }) := by
  unfold BacktestContext.buy
  simp only [priceTruthy, Bool.false_eq_true, false_and, and_false, if_false,
    Option.getD_none, if_neg (by simp : ¬ (False ∧ ¬ ctx.hasSide "Sell" = true))]
  unfold BacktestContext.execute_buy BacktestContext.hasSide
  rw [hpos]
  simp only [if_neg hbal]
  simp [hpos]

/-- An immediately-executing market sell while holding a long: closes the
position at the current price, crediting margin plus PnL net of the exit
fee. -/
lemma sell_market_closes_long (ctx : BacktestContext) (q : ℚ) (p : Position)
    (hpos : ctx.position = some p) (hside : p.side = "Buy") :
    ctx.sell q none false false =
      (some "BT_ID",
        { ctx with
            balance := ctx.balance + p.margin_used +
              ((ctx.current_price - p.entry_price) * p.qty -
                p.qty * ctx.current_price * ctx.fee_rate)
            trades := ctx.trades ++
              [{ type := "Close", price := ctx.current_price, qty := none,
                 pnl := some ((ctx.current_price - p.entry_price) * p.qty -
                   p.qty * ctx.current_price * ctx.fee_rate),
                 time := ctx.current_time }]
            position := none }) := by
  unfold BacktestContext.sell
  simp only [priceTruthy, Bool.false_eq_true, false_and, and_false, if_false]
  unfold BacktestContext.execute_sell BacktestContext.hasSide
    BacktestContext.close_position
  rw [hpos]
  simp [hside]

/-- A fresh simulation context (default balance 10000 and fee rate 0.0006)
whose replay clock stands at price 100. -/
def ctxC4 : BacktestContext :=
  { balance := 10000, fee_rate := 6 / 10000, leverage := 1, position := none,
    trades := [], pending_orders := [], current_price := 100,
    current_time := none }

/-- C4, counterexample: with balance 10000, fee rate 0.0006, leverage 1,
quantity 1, entry 100 and exit 200, the final balance is 10099.82, not the
claimed `balance_before + net_pnl = 10099.88`: the entry-side fee
(100 × 0.0006 = 0.06) is also debited and never refunded. -/
theorem buy_sell_balance_claim_false :
    (((ctxC4.buy 1 none false false).2.update_state 200 none none).sell
          1 none false false).2.balance ≠
        ctxC4.balance + ((200 - 100) * 1 - 1 * 200 * ctxC4.fee_rate) ∧
      (((ctxC4.buy 1 none false false).2.update_state 200 none none).sell
          1 none false false).2.balance = 1009982 / 100 := by
  have hbal : ¬ ctxC4.balance < 1 * ctxC4.current_price / ctxC4.leverage +
      1 * ctxC4.current_price * ctxC4.fee_rate := by norm_num [ctxC4]
  have hbuy := buy_market_opens_long ctxC4 1 rfl hbal
  have hpos1 : ((ctxC4.buy 1 none false false).2.update_state 200 none
      none).position =
      some { side := "Buy", qty := 1, entry_price := ctxC4.current_price,
             margin_used := 1 * ctxC4.current_price / ctxC4.leverage } := by
    rw [hbuy]; rfl
  have hs := sell_market_closes_long _ 1 _ hpos1 rfl
  rw [hs]
  constructor
  · rw [hbuy]
    simp only [BacktestContext.update_state]
    norm_num [ctxC4]
  · rw [hbuy]
    simp only [BacktestContext.update_state]
    norm_num [ctxC4]

/-- C4 (amended): an immediately-executing buy of `q` at `entry` followed
immediately by a sell of `q` at `exitp` yields
`balance_after = balance_before + net_pnl − entry_fee`, where
`net_pnl = (exitp − entry)·q − (q·exitp)·fee_rate` and
`entry_fee = (q·entry)·fee_rate`: the buy's fee is debited as well, so the
spec's equation holds only after subtracting it. -/
theorem buy_sell_round_trip_balance (ctx : BacktestContext)
    (q entry exitp : ℚ) (t : Option Nat)
    (hpos : ctx.position = none)
    (hcp : ctx.current_price = entry)
    (hbal : ¬ ctx.balance < q * entry / ctx.leverage +
      q * entry * ctx.fee_rate) :
    (ctx.buy q none false false).1 = some "BT_ID" ∧
    (((ctx.buy q none false false).2.update_state exitp t none).sell
        q none false false).1 = some "BT_ID" ∧
    (((ctx.buy q none false false).2.update_state exitp t none).sell
        q none false false).2.balance =
      ctx.balance + ((exitp - entry) * q - q * exitp * ctx.fee_rate) -
        q * entry * ctx.fee_rate := by
  rw [← hcp] at hbal
  have hbuy := buy_market_opens_long ctx q hpos hbal
  set ctx1 := (ctx.buy q none false false).2 with hctx1
  have h1 : ctx1 =
      { ctx with
          balance := ctx.balance - (q * ctx.current_price / ctx.leverage +
            q * ctx.current_price * ctx.fee_rate)
          position := some
            { side := "Buy", qty := q, entry_price := ctx.current_price,
              margin_used := q * ctx.current_price / ctx.leverage }
          trades := ctx.trades ++
            [{ type := "Buy", price := ctx.current_price, qty := some q,
               pnl := none, time := ctx.current_time }] } := by
    rw [hctx1, hbuy]
  refine ⟨by rw [hbuy], ?_, ?_⟩
  · have := sell_market_closes_long (ctx1.update_state exitp t none) q
      { side := "Buy", qty := q, entry_price := ctx.current_price,
        margin_used := q * ctx.current_price / ctx.leverage }
      (by rw [h1]; rfl) rfl
    rw [this]
  · have hs := sell_market_closes_long (ctx1.update_state exitp t none) q
      { side := "Buy", qty := q, entry_price := ctx.current_price,
        margin_used := q * ctx.current_price / ctx.leverage }
      (by rw [h1]; rfl) rfl
    rw [hs]
    have hb1 : (ctx1.update_state exitp t none).balance =
        ctx.balance - (q * ctx.current_price / ctx.leverage +
          q * ctx.current_price * ctx.fee_rate) := by
      rw [h1]; rfl
    have hcp1 : (ctx1.update_state exitp t none).current_price = exitp := rfl
    have hfr : (ctx1.update_state exitp t none).fee_rate = ctx.fee_rate := by
      rw [h1]; rfl
    simp only [hb1, hcp1, hfr, hcp]
    ring

/-- C4 witness: the amended equation at balance 10000, fee 0.0006,
leverage 1, quantity 1, entry 100, exit 200. -/
theorem buy_sell_round_trip_balance_witness :
    (ctxC4.buy 1 none false false).1 = some "BT_ID" ∧
    (((ctxC4.buy 1 none false false).2.update_state 200 none none).sell
        1 none false false).1 = some "BT_ID" ∧
    (((ctxC4.buy 1 none false false).2.update_state 200 none none).sell
        1 none false false).2.balance =
      ctxC4.balance + ((200 - 100) * 1 - 1 * 200 * ctxC4.fee_rate) -
        1 * 100 * ctxC4.fee_rate :=
  buy_sell_round_trip_balance ctxC4 1 100 200 none rfl rfl
    (by norm_num [ctxC4])

/-- C5, counterexample: a market sell with `reduce_only = false` and no
existing position opens nothing — the context is returned unchanged with a
`None` result, refuting the claim that it opens a Sell-side position,
debits margin and appends a Sell trade record. -/
theorem sell_opens_short_claim_false :
    ctxC4.sell 1 none false false = (none, ctxC4) ∧
      (ctxC4.sell 1 none false false).2.position = none ∧
      (ctxC4.sell 1 none false false).2.trades = [] ∧
      (ctxC4.sell 1 none false false).2.balance = ctxC4.balance := by
  refine ⟨?_, rfl, rfl, rfl⟩
  rfl

/-- C5 (amended): `sell` mirrors `buy` only on the closing side.  An
immediately-executing sell (market, or limit at or below the current price)
with `reduce_only = false` and no existing position is a no-op: it returns
`None` and leaves balance, position, trade log and pending book untouched —
`_execute_sell` never opens a short position. -/
theorem sell_without_position_is_noop (ctx : BacktestContext) (q : ℚ)
    (price : Option ℚ) (hpos : ctx.position = none)
    (himm : ¬ (priceTruthy price = true ∧ price.getD 0 > ctx.current_price)) :
    ctx.sell q price false false = (none, ctx) := by
  unfold BacktestContext.sell
  simp only [Bool.false_eq_true, false_and, if_false]
  rw [if_neg himm]
  unfold BacktestContext.execute_sell BacktestContext.hasSide
  rw [hpos]
  simp

/-- C5 witness: the no-op at a concrete limit sell below market. -/
theorem sell_without_position_is_noop_witness :
    ctxC4.sell 1 (some 90) false false = (none, ctxC4) :=
  sell_without_position_is_noop ctxC4 1 (some 90) rfl
    (by norm_num [priceTruthy, ctxC4])

/-- C9: a resting buy order whose limit is touched by the candle
(`low ≤ price`) while the wallet cannot cover margin plus fee: the fill
attempt returns `None`, yet the order is removed from the book — no trade
is logged, no position created, nothing retried later. -/
theorem touched_buy_insufficient_balance_dropped (ctx : BacktestContext)
    (o : PendingOrder) (candle : Candle)
    (hbook : ctx.pending_orders = [o])
    (hside : o.side = "Buy")
    (htouch : candle.low ≤ o.price)
    (hbal : ctx.balance < o.qty * o.price / ctx.leverage +
      o.qty * o.price * ctx.fee_rate) :
    (ctx.execute_buy o.qty o.price o.reduce_only).1 = none ∧
    ctx.check_pending_orders candle = { ctx with pending_orders := [] } := by
  have hex : ctx.execute_buy o.qty o.price o.reduce_only = (none, ctx) := by
    unfold BacktestContext.execute_buy
    simp [hbal]
  refine ⟨by rw [hex], ?_⟩
  unfold BacktestContext.check_pending_orders
  rw [hbook]
  simp only [List.foldl]
  rw [if_pos ⟨hside, htouch⟩, hex]
  simp [removeFirst, hbook]

/-- A resting post-only buy at 95 in a wallet holding only 10 USDT. -/
def oC9 : PendingOrder :=
  { side := "Buy", qty := 1, price := 95, post_only := true,
    reduce_only := false }

/-- The context holding `oC9` as its only pending order. -/
def ctxC9 : BacktestContext :=
  { balance := 10, fee_rate := 6 / 10000, leverage := 1, position := none,
    trades := [], pending_orders := [oC9], current_price := 100,
    current_time := none }

/-- C9 witness: a bar with low 94 touches the 95 limit; the underfunded
order is dropped without any mutation. -/
theorem touched_buy_insufficient_balance_dropped_witness :
    (ctxC9.execute_buy oC9.qty oC9.price oC9.reduce_only).1 = none ∧
      ctxC9.check_pending_orders { low := 94, high := 101 } =
        { ctxC9 with pending_orders := [] } :=
  touched_buy_insufficient_balance_dropped ctxC9 oC9
    { low := 94, high := 101 } rfl rfl (by norm_num [oC9])
    (by norm_num [oC9, ctxC9])

end RexLapis
